import Mathlib

/-!
Verification development for the WeCom (enterprise IM) bot callback gateway:
`app/api/wecom.py` and `app/utils/wecom_message.py`, plus the crypto envelope
described by the design document (the crypto source file is not part of the
checked-in sources, so it is modelled from the specification text).

Python dicts that are later serialized with `json.dumps` are embedded as a
small `Json` value type; the final string dump is not modelled (claims are
about the shape and contents of the reply objects, which the dump preserves).
Byte strings are embedded as `List Nat`; `base64.b64encode` and
`hashlib.md5(...).hexdigest()` are pure encodings of the byte payload and are
passed in as an explicit `Digests` record so statements quantify over them.
-/

/-- Embedding of the Python dict/list/str/int/bool values that the source
builds and then passes to `json.dumps`. -/
inductive Json where
  | str (s : String)
  | num (n : Nat)
  | bool (b : Bool)
  | arr (elems : List Json)
  | obj (fields : List (String × Json))

/-- The pure byte-payload encodings used when an image is placed into a
reply: `base64.b64encode(data).decode` and `hashlib.md5(data).hexdigest()`. -/
structure Digests where
  b64 : List Nat → String
  md5hex : List Nat → String

/-- `wecom_message.make_text_stream`: the dict
`msgtype=stream, stream=(id, finish, content)`. -/
def make_text_stream (stream_id : String) (content : String) (finish : Bool) : Json :=
  Json.obj [("msgtype", Json.str "stream"),
    ("stream", Json.obj [("id", Json.str stream_id), ("finish", Json.bool finish),
      ("content", Json.str content)])]

/-- The image item dict `msgtype=image, image=(base64, md5)` built both by
`make_image_stream` and inline in the mixed branch of `handle_message`. -/
def imageItemJson (dg : Digests) (image_data : List Nat) : Json :=
  Json.obj [("msgtype", Json.str "image"),
    ("image", Json.obj [("base64", Json.str (dg.b64 image_data)),
      ("md5", Json.str (dg.md5hex image_data))])]

/-- The text item dict `msgtype=text, text=(content)` built inline in the
mixed branch of `handle_message`. -/
def textItemJson (content : String) : Json :=
  Json.obj [("msgtype", Json.str "text"),
    ("text", Json.obj [("content", Json.str content)])]

/-- `wecom_message.make_image_stream`: a stream dict whose `msg_item` list
holds a single image item. -/
def make_image_stream (dg : Digests) (stream_id : String) (image_data : List Nat)
    (finish : Bool) : Json :=
  Json.obj [("msgtype", Json.str "stream"),
    ("stream", Json.obj [("id", Json.str stream_id), ("finish", Json.bool finish),
      ("msg_item", Json.arr [imageItemJson dg image_data])])]

/-- `wecom_message.make_mixed_stream`: a stream dict carrying a caller-built
`msg_item` list. -/
def make_mixed_stream (stream_id : String) (items : List Json) (finish : Bool) : Json :=
  Json.obj [("msgtype", Json.str "stream"),
    ("stream", Json.obj [("id", Json.str stream_id), ("finish", Json.bool finish),
      ("msg_item", Json.arr items)])]

/-- `wecom_message.make_template_card`: `msgtype=template_card` wrapping the
card data dict. -/
def make_template_card (card_data : Json) : Json :=
  Json.obj [("msgtype", Json.str "template_card"), ("template_card", card_data)]

/-- The `card_data` dict built inside `wecom_message.make_welcome_template_card`. -/
def welcome_card_data (agent_name : String) : Json :=
  Json.obj [
    ("card_type", Json.str "text_notice"),
    ("source", Json.obj [
      ("icon_url", Json.str "https://wework.qpic.cn/wwpic/252813_jOfDHtcISzuodLa_1629280209/0"),
      ("desc", Json.str agent_name),
      ("desc_color", Json.num 1)]),
    ("main_title", Json.obj [
      ("title", Json.str ("欢迎使用" ++ agent_name)),
      ("desc", Json.str "我是您的智能助手，可以帮您解答问题、提供信息和协助工作")]),
    ("emphasis_content", Json.obj [
      ("title", Json.str "在线"), ("desc", Json.str "服务状态")]),
    ("horizontal_content_list", Json.arr [
      Json.obj [("keyname", Json.str "功能"), ("value", Json.str "智能问答、知识查询、工作协助")],
      Json.obj [("keyname", Json.str "支持"), ("value", Json.str "文本、图片、混合消息")]]),
    ("jump_list", Json.arr [
      Json.obj [("type", Json.num 3), ("title", Json.str "了解功能"),
        ("question", Json.str "你有哪些功能？")],
      Json.obj [("type", Json.num 3), ("title", Json.str "使用帮助"),
        ("question", Json.str "如何使用你？")]])]

/-- `wecom_message.make_welcome_template_card`. -/
def make_welcome_template_card (agent_name : String) : Json :=
  make_template_card (welcome_card_data agent_name)

/-! ## The turn cache (`wecom_message.StreamMessageCache`)

The Python `_cache` dict is embedded as an association list (insertion
order), `_processed_msgids` (a `set`) as a duplicate-free list in insertion
order, and `time.time()` values as explicit `Int` arguments. -/

/-- One value of the `_cache` dict: the per-turn record created by
`create_stream`. -/
structure Turn where
  user_query : String
  created_time : Int
  text_parts : List String
  images : List (List Nat)
  is_finished : Bool
  conversation_id : Option String

/-- Lookup in the `_cache` dict. -/
def dictGet (k : String) : List (String × Turn) → Option Turn
  | [] => none
  | (k', v) :: rest => if k' = k then some v else dictGet k rest

/-- `self._cache[k] = v`: replace in place or append. -/
def dictSet (k : String) (v : Turn) : List (String × Turn) → List (String × Turn)
  | [] => [(k, v)]
  | (k', v') :: rest => if k' = k then (k, v) :: rest else (k', v') :: dictSet k v rest

/-- `if k in self._cache: self._cache[k] = f(self._cache[k])` — the guarded
in-place mutation pattern used by all the append/mark operations. -/
def dictUpdate (k : String) (f : Turn → Turn) : List (String × Turn) → List (String × Turn)
  | [] => []
  | (k', v) :: rest => if k' = k then (k', f v) :: rest else (k', v) :: dictUpdate k f rest

/-- `self._cache.pop(k, None)`. -/
def dictRemove (k : String) : List (String × Turn) → List (String × Turn)
  | [] => []
  | (k', v) :: rest => if k' = k then rest else (k', v) :: dictRemove k rest

/-- The mutable state of the `StreamMessageCache` singleton. -/
structure StreamMessageCache where
  cache : List (String × Turn)
  processed_msgids : List String
  last_cleanup : Int

namespace StreamMessageCache

/-- `is_message_processed`: membership in the dedup set. -/
def is_message_processed (st : StreamMessageCache) (msgid : String) : Bool :=
  decide (msgid ∈ st.processed_msgids)

/-- `mark_message_processed`: add to the dedup set; when the set grows past
10000 entries the oldest half (the first 5000 in iteration order, modelled
as insertion order) is discarded. -/
def mark_message_processed (st : StreamMessageCache) (msgid : String) : StreamMessageCache :=
  let s := if msgid ∈ st.processed_msgids then st.processed_msgids
           else st.processed_msgids ++ [msgid]
  let s := if s.length > 10000 then s.drop 5000 else s
  { st with processed_msgids := s }

/-- `_cleanup_old_streams`: runs at most once per 3600 s; removes turns whose
`created_time` lies more than 3600 s in the past. -/
def cleanup_old_streams (st : StreamMessageCache) (now : Int) : StreamMessageCache :=
  if now - st.last_cleanup < 3600 then st
  else { st with
    cache := st.cache.filter (fun p => decide (now - p.2.created_time ≤ 3600)),
    last_cleanup := now }

/-- `create_stream`: insert a fresh unfinished turn, then attempt cleanup. -/
def create_stream (st : StreamMessageCache) (stream_id user_query : String)
    (now : Int) : StreamMessageCache :=
  cleanup_old_streams { st with
    cache := dictSet stream_id
      ⟨user_query, now, [], [], false, none⟩ st.cache } now

/-- `add_text_part`: append a fragment when the turn exists (no finished
check — appending is not gated on `is_finished`). -/
def add_text_part (st : StreamMessageCache) (stream_id text : String) : StreamMessageCache :=
  { st with cache :=
      dictUpdate stream_id (fun tr => { tr with text_parts := tr.text_parts ++ [text] }) st.cache }

/-- `add_image`: append an image blob when the turn exists. -/
def add_image (st : StreamMessageCache) (stream_id : String)
    (image_data : List Nat) : StreamMessageCache :=
  { st with cache :=
      dictUpdate stream_id (fun tr => { tr with images := tr.images ++ [image_data] }) st.cache }

/-- `set_conversation_id`: unconditional overwrite when the turn exists
(the source has no already-set check). -/
def set_conversation_id (st : StreamMessageCache) (stream_id conversation_id : String) :
    StreamMessageCache :=
  { st with cache :=
      dictUpdate stream_id (fun tr => { tr with conversation_id := some conversation_id }) st.cache }

/-- `mark_finished`: set the flag when the turn exists. -/
def mark_finished (st : StreamMessageCache) (stream_id : String) : StreamMessageCache :=
  { st with cache :=
      dictUpdate stream_id (fun tr => { tr with is_finished := true }) st.cache }

/-- `get_stream_data`: `self._cache.get(stream_id)`. -/
def get_stream_data (st : StreamMessageCache) (stream_id : String) : Option Turn :=
  dictGet stream_id st.cache

/-- `get_current_content`: `''.join(text_parts)`, empty string when missing. -/
def get_current_content (st : StreamMessageCache) (stream_id : String) : String :=
  match dictGet stream_id st.cache with
  | none => ""
  | some tr => String.join tr.text_parts

/-- `is_finished`: `True` when the turn is missing, else the stored flag. -/
def is_finished (st : StreamMessageCache) (stream_id : String) : Bool :=
  match dictGet stream_id st.cache with
  | none => true
  | some tr => tr.is_finished

/-- `remove_stream`: `self._cache.pop(stream_id, None)`. -/
def remove_stream (st : StreamMessageCache) (stream_id : String) : StreamMessageCache :=
  { st with cache := dictRemove stream_id st.cache }

end StreamMessageCache

/-! ## The background relay (`wecom.process_dify_response`)

The Dify streaming response is embedded as the list of events the `async
for` loop receives; network effects (service construction, image upload,
`close`) do not touch the cache and are not modelled. -/

/-- One chunk of the Dify streaming response, keyed by its `event` field. -/
inductive DifyEvent where
  | message (answer : String)
  | message_end (conversation_id : Option String)
  | error (message : String)
  | other (event : String)

/-- The `async for chunk in ...` loop body of `process_dify_response`.
On `error` the source builds `make_text_stream(stream_id, apology, True)`
into the local `error_stream` variable but never stores or sends it; only
`mark_finished` takes effect before the `break`. -/
def relayLoop (stream_id : String) : StreamMessageCache → List DifyEvent → StreamMessageCache
  | st, [] => st
  | st, ev :: rest =>
    match ev with
    | .message answer =>
      relayLoop stream_id (if answer ≠ "" then st.add_text_part stream_id answer else st) rest
    | .message_end conversation_id =>
      let st := match conversation_id with
                | some cid => st.set_conversation_id stream_id cid
                | none => st
      st.mark_finished stream_id
    | .error _ => st.mark_finished stream_id
    | .other _ => relayLoop stream_id st rest

/-- `process_dify_response`: create the turn, then consume the event stream. -/
def process_dify_response (stream_id user_query : String) (now : Int)
    (events : List DifyEvent) (st : StreamMessageCache) : StreamMessageCache :=
  relayLoop stream_id (st.create_stream stream_id user_query now) events

/-- The `except Exception` handler of `process_dify_response`: the apology
`make_text_stream(stream_id, ..., True)` is again built into an unused local;
only `mark_finished` takes effect. -/
def process_dify_response_exc (stream_id : String) (st : StreamMessageCache) :
    StreamMessageCache :=
  st.mark_finished stream_id

/-! ## The POST callback handler (`wecom.handle_message`)

The embedding starts after signature verification and decryption succeed
(the claims all quantify over the decrypted payload). `generate_random_string`
draws, the resolved Agent row, and the network-bound
`process_encrypted_image` are inputs supplied through `HandlerCtx`. -/

/-- An entry of `data['mixed']['msg_item']` as read by the mixed branch
(`item.get('msgtype','')` with the nested `.get(...,'')` defaults). -/
inductive InItem where
  | text (content : String)
  | image (url : String)
  | other

/-- `data.get('event','')`: `absent` is the `''` default, on which the
subsequent `.get('eventtype')` attribute access raises. -/
inductive EventField where
  | absent
  | dict (eventtype : Option String)

/-- The decrypted callback payload, with the source's defaulting applied:
`msgid`/`aibotid`/`chattype` via `data.get(...)`, `userid` via
`data.get('from',{}).get('userid','anonymous')`; fields read with plain
indexing (`data['text']['content']`, `data['stream']['id']`,
`data['image']['url']`) are `Option`s whose `none` is the `KeyError` case. -/
structure DecryptedData where
  msgtype : Option String
  msgid : String
  aibotid : String
  chattype : String
  userid : String
  text_content : Option String
  stream_id : Option String
  image_url : Option String
  mixed_items : List InItem
  event : EventField

/-- Environment of one `handle_message` call: digests, the configured
receive id, the Agent name resolved from `aibotid` (None when no active
agent), the `process_encrypted_image` download+decrypt oracle, and the two
possible `generate_random_string(16)` draws. -/
structure HandlerCtx where
  dg : Digests
  receive_id : String
  agent_name : Option String
  imgFetch : String → Except String (List Nat)
  freshId : String
  freshErrId : String

/-- A `background_tasks.add_task(process_dify_response, ...)` launch. -/
structure RelayTask where
  stream_id : String
  user_query : String
  user_id : String
  images : List (List Nat)

/-- The HTTP body of a 200 reply: the bare string, or
`encrypt_message(receive_id_used, nonce, timestamp, json.dumps reply)`. -/
inductive RespBody where
  | plain (s : String)
  | sealed (receive_id_used : String) (reply : Json)

/-- Outcome of the handler: a 200 response or a raised `HTTPException`. -/
inductive HandlerResult where
  | ok (body : RespBody)
  | httpError (code : Nat)

/-- Full effect of one `handle_message` call. -/
structure HandlerOutcome where
  result : HandlerResult
  st : StreamMessageCache
  tasks : List RelayTask

/-- The scan over `mixed['msg_item']` (lines 533-549): collect non-empty
text contents in order, and the successfully downloaded+decrypted images in
order (a failed image is logged and skipped). -/
def collectMixed (fetch : String → Except String (List Nat)) :
    List InItem → List String × List (List Nat)
  | [] => ([], [])
  | .text c :: rest =>
    let r := collectMixed fetch rest
    (if c ≠ "" then c :: r.1 else r.1, r.2)
  | .image url :: rest =>
    let r := collectMixed fetch rest
    if url ≠ "" then
      match fetch url with
      | .ok b => (r.1, b :: r.2)
      | .error _ => r
    else r
  | .other :: rest => collectMixed fetch rest

/-- Python `str.strip()`: drop whitespace from both ends (structural
recursion over the character list, so that concrete instances evaluate). -/
def pyStrip (s : String) : String :=
  String.mk (((s.data.dropWhile Char.isWhitespace).reverse.dropWhile
    Char.isWhitespace).reverse)

/-- The finished-turn reply construction of the stream branch (lines
443-473): mixed when images and (Python-truthy) content are both present —
with the text item included only when `content.strip()` is non-empty — else
a single-image reply of `images[0]`, else a final text reply. -/
def buildFinishedReply (dg : Digests) (stream_id content : String)
    (images : List (List Nat)) : Json :=
  if images ≠ [] ∧ content ≠ "" then
    make_mixed_stream stream_id
      ((if pyStrip content ≠ "" then [textItemJson content] else []) ++
        images.map (imageItemJson dg)) true
  else
    match images with
    | img :: _ => make_image_stream dg stream_id img true
    | [] => make_text_stream stream_id content true

/-- Lookup of a key in an embedded Python dict. -/
def jsonField (k : String) : List (String × Json) → Option Json
  | [] => none
  | (k', v) :: rest => if k' = k then some v else jsonField k rest

/-- `wecom.encrypt_message` (lines 42-74): after sealing, the source
unconditionally runs `json.loads(stream)`, reads
`stream_data['stream']['id']` and `stream_data['stream']['finish']` for the
completion log line, and only then returns. A payload without those keys
(such as the template-card reply) raises `KeyError`, modelled as `.error`;
the sealed reply itself is the `.sealed` body. -/
def encrypt_message (receive_id : String) (reply : Json) : Except Unit RespBody :=
  match reply with
  | Json.obj fields =>
    match jsonField "stream" fields with
    | some (Json.obj sfields) =>
      match jsonField "id" sfields, jsonField "finish" sfields with
      | some _, some _ => .ok (.sealed receive_id reply)
      | _, _ => .error ()
    | _ => .error ()
  | _ => .error ()

/-- `handle_message` after decryption: dedup check, mark processed, then
dispatch on `msgtype`. Every sealed return goes through `encrypt_message`;
its `KeyError` — like any uncaught exception — reaches the final
`except Exception` handler, which raises `HTTPException(500)`, modelled as
`httpError 500`. -/
def handle_message (ctx : HandlerCtx) (data : DecryptedData)
    (st : StreamMessageCache) : HandlerOutcome :=
  match data.msgtype with
  | none => ⟨.ok (.plain "success"), st, []⟩
  | some msgtype =>
    if data.msgid ≠ "" ∧ st.is_message_processed data.msgid then
      ⟨.ok (.plain "success"), st, []⟩
    else
      let st1 := if data.msgid ≠ "" then st.mark_message_processed data.msgid else st
      if msgtype = "text" then
        match data.text_content with
        | none => ⟨.httpError 500, st1, []⟩
        | some content =>
          match encrypt_message ctx.receive_id
              (make_text_stream ctx.freshId "正在思考中..." false) with
          | .ok body => ⟨.ok body, st1, [⟨ctx.freshId, content, data.userid, []⟩]⟩
          | .error _ => ⟨.httpError 500, st1, []⟩
      else if msgtype = "stream" then
        match data.stream_id with
        | none => ⟨.httpError 500, st1, []⟩
        | some sid =>
          if st1.is_finished sid then
            match st1.get_stream_data sid with
            | none => ⟨.httpError 500, st1, []⟩
            | some turn =>
              let resp := buildFinishedReply ctx.dg sid (st1.get_current_content sid) turn.images
              let st2 := st1.remove_stream sid
              match encrypt_message ctx.receive_id resp with
              | .ok body => ⟨.ok body, st2, []⟩
              | .error _ => ⟨.httpError 500, st2, []⟩
          else
            match encrypt_message ctx.receive_id
                (make_text_stream sid (st1.get_current_content sid) false) with
            | .ok body => ⟨.ok body, st1, []⟩
            | .error _ => ⟨.httpError 500, st1, []⟩
      else if msgtype = "image" then
        match data.image_url with
        | none => ⟨.httpError 500, st1, []⟩
        | some url =>
          match ctx.imgFetch url with
          | .error e =>
            match encrypt_message ctx.receive_id
                (make_text_stream ctx.freshErrId ("图片处理失败: " ++ e) true) with
            | .ok body => ⟨.ok body, st1, []⟩
            | .error _ => ⟨.httpError 500, st1, []⟩
          | .ok decrypted_data =>
            match encrypt_message ctx.receive_id
                (make_text_stream ctx.freshId "正在分析您的图片..." false) with
            | .ok body =>
              ⟨.ok body, st1, [⟨ctx.freshId, "请分析这张图片", data.userid, [decrypted_data]⟩]⟩
            | .error _ => ⟨.httpError 500, st1, []⟩
      else if msgtype = "mixed" then
        let collected := collectMixed ctx.imgFetch data.mixed_items
        let combined_text := String.intercalate "\n" collected.1
        if combined_text ≠ "" ∨ collected.2 ≠ [] then
          let initial :=
            if collected.2 ≠ [] ∧ combined_text ≠ "" then "正在分析您的图文消息..."
            else if collected.2 ≠ [] then "正在分析您的图片..."
            else "正在处理您的消息..."
          match encrypt_message ctx.receive_id (make_text_stream ctx.freshId initial false) with
          | .ok body =>
            ⟨.ok body, st1,
              [⟨ctx.freshId, (if combined_text ≠ "" then combined_text else "请分析这张图片"),
                data.userid, collected.2⟩]⟩
          | .error _ => ⟨.httpError 500, st1, []⟩
        else ⟨.ok (.plain "success"), st1, []⟩
      else if msgtype = "event" then
        match data.event with
        | .absent => ⟨.httpError 500, st1, []⟩
        | .dict eventtype =>
          if eventtype = some "enter_chat" then
            match encrypt_message data.aibotid
                (make_welcome_template_card (ctx.agent_name.getD "AI助手")) with
            | .ok body => ⟨.ok body, st1, []⟩
            | .error _ => ⟨.httpError 500, st1, []⟩
          else ⟨.ok (.plain "success"), st1, []⟩
      else ⟨.ok (.plain "success"), st1, []⟩

/-! ## The crypto envelope

Modelled from the spec: the repository imports `WXBizJsonMsgCrypt` from
`app/utils/wecom_crypto.py`, which is not among the checked-in sources, so
the seal/unseal/signature scheme below follows the specification text
(section 4.1): framing `random(16) ∥ bigEndianUint32(len) ∥ message ∥
receiverId`, PKCS#7-style padding to a 32-byte boundary with pad value
`32 - len % 32` (32 when the remainder is 0), AES-256-CBC with IV = first 16
key bytes, and `SHA1(sortedConcat(token, timestamp, nonce, ciphertext))` as
the signature. The AES block permutation and SHA1 are abstracted as function
arguments (`E`/`D` on 16-byte blocks, `h` on strings); CBC chaining,
framing, padding and signature comparison are concrete. -/

/-- Per-byte XOR of two equal-length byte lists (CBC chaining step). -/
def xorBytes (a b : List Nat) : List Nat :=
  List.zipWith (fun x y => x ^^^ y) a b

/-- Split a byte list into consecutive 16-byte blocks; `fuel` bounds the
recursion and is instantiated with the list length. -/
def toBlocksFuel : Nat → List Nat → List (List Nat)
  | 0, _ => []
  | _, [] => []
  | fuel + 1, xs => xs.take 16 :: toBlocksFuel fuel (xs.drop 16)

/-- CBC encryption over the block list: `c_i = E (p_i xor c_(i-1))`. -/
def cbcEncBlocks (E : List Nat → List Nat) : List Nat → List (List Nat) → List (List Nat)
  | _, [] => []
  | prev, b :: bs =>
    let c := E (xorBytes prev b)
    c :: cbcEncBlocks E c bs

/-- CBC decryption over the block list: `p_i = D c_i xor c_(i-1)`. -/
def cbcDecBlocks (D : List Nat → List Nat) : List Nat → List (List Nat) → List (List Nat)
  | _, [] => []
  | prev, c :: cs => xorBytes prev (D c) :: cbcDecBlocks D c cs

/-- AES-256-CBC encryption of a full byte string (length a multiple of 16). -/
def cbcEncrypt (E : List Nat → List Nat) (iv xs : List Nat) : List Nat :=
  (cbcEncBlocks E iv (toBlocksFuel xs.length xs)).flatten

/-- AES-256-CBC decryption of a full byte string (length a multiple of 16). -/
def cbcDecrypt (D : List Nat → List Nat) (iv xs : List Nat) : List Nat :=
  (cbcDecBlocks D iv (toBlocksFuel xs.length xs)).flatten

/-- Modelled from the spec: the pad length `32 - len % 32` (32 when the
remainder is 0 — never a zero-length pad block). -/
def padLen32 (n : Nat) : Nat := 32 - n % 32

/-- Modelled from the spec: PKCS#7-style padding to a 32-byte boundary. -/
def pad32 (xs : List Nat) : List Nat :=
  xs ++ List.replicate (padLen32 xs.length) (padLen32 xs.length)

/-- Modelled from the spec: strip the trailing pad byte count on unseal. -/
def unpad32 (xs : List Nat) : List Nat :=
  xs.take (xs.length - (xs.getLast?.getD 0))

/-- Big-endian 4-byte encoding of the message length. -/
def beUint32 (n : Nat) : List Nat :=
  [n / 16777216 % 256, n / 65536 % 256, n / 256 % 256, n % 256]

/-- Big-endian decoding of the 4-byte length prefix. -/
def beDecode (bs : List Nat) : Nat :=
  match bs with
  | [a, b, c, d] => ((a * 256 + b) * 256 + c) * 256 + d
  | _ => 0

/-- Modelled from the spec: the plaintext-to-seal framing
`random(16 bytes) ∥ bigEndianUint32(len message) ∥ message ∥ receiverId`. -/
def frame (rnd message receiver : List Nat) : List Nat :=
  rnd ++ beUint32 message.length ++ message ++ receiver

/-- Modelled from the spec: the unseal-side parse — drop the 16 random
bytes, read the 4-byte length, take exactly that many message bytes, and
require the tail to equal the expected receiver id. -/
def unframe (receiver xs : List Nat) : Option (List Nat) :=
  if ((xs.drop 16).drop 4).drop (beDecode ((xs.drop 16).take 4)) = receiver
  then some (((xs.drop 16).drop 4).take (beDecode ((xs.drop 16).take 4)))
  else none

/-- Modelled from the spec: `seal` = frame, pad to 32 bytes, CBC-encrypt. -/
def sealMsg (E : List Nat → List Nat) (iv rnd receiver message : List Nat) : List Nat :=
  cbcEncrypt E iv (pad32 (frame rnd message receiver))

/-- Modelled from the spec: `unseal` = CBC-decrypt, strip the pad, parse
the frame and check the receiver id. -/
def unsealMsg (D : List Nat → List Nat) (iv receiver ciphertext : List Nat) : Option (List Nat) :=
  unframe receiver (unpad32 (cbcDecrypt D iv ciphertext))

/-- Insert a string into a sorted list (ordering step of `sortedConcat`). -/
def insertSorted (s : String) : List String → List String
  | [] => [s]
  | t :: ts => if s ≤ t then s :: t :: ts else t :: insertSorted s ts

/-- Lexicographic sort of the signature inputs. -/
def sortStrings (l : List String) : List String :=
  l.foldr insertSorted []

/-- Modelled from the spec: the signature
`SHA1(sortedConcat(token, timestamp, nonce, ciphertext))`, with SHA1
abstracted as `h`. -/
def computeSignature (h : String → String) (token timestamp nonce ciphertext : String) : String :=
  h (String.join (sortStrings [token, timestamp, nonce, ciphertext]))

/-- Modelled from the spec: `verifyURL`'s signature acceptance — recompute
and compare with the presented signature. -/
def verifySignature (h : String → String)
    (token msg_signature timestamp nonce ciphertext : String) : Bool :=
  decide (msg_signature = computeSignature h token timestamp nonce ciphertext)

/-! ## The image cipher (`wecom_message.process_encrypted_image`)

The download step is network I/O; the embedding starts from the downloaded
ciphertext, covering the key-length check, the AES-CBC decryption (IV =
first 16 key bytes, block permutation abstracted as `D`), and the padding
strip of lines 276-281. -/

/-- Lines 276-281: read the pad length from the final byte (`IndexError` on
empty data is caught by the generic handler), reject it only when above 32,
and drop that many trailing bytes — Python `data[:-0]` is `data[:0] = b''`,
so a final byte 0 strips the entire plaintext. -/
def stripImagePadding (decrypted_data : List Nat) : Except String (List Nat) :=
  match decrypted_data.getLast? with
  | none => .error "图片处理异常: index out of range"
  | some pad_len =>
    if pad_len > 32 then .error "参数错误: 无效的填充长度 (大于32字节)"
    else .ok (if pad_len = 0 then []
              else decrypted_data.take (decrypted_data.length - pad_len))

/-- `process_encrypted_image` from the downloaded ciphertext onward:
key-length check, CBC-decrypt with IV = first 16 key bytes, strip padding. -/
def process_encrypted_image_core (D : List Nat → List Nat)
    (aes_key encrypted_data : List Nat) : Except String (List Nat) :=
  if aes_key.length ≠ 32 then .error "参数错误: 无效的AES密钥长度: 应为32字节"
  else stripImagePadding (cbcDecrypt D (aes_key.take 16) encrypted_data)

/-! ## Helper lemmas about the cache dictionary -/

theorem dictGet_dictUpdate_self (k : String) (f : Turn → Turn) :
    ∀ d : List (String × Turn), dictGet k (dictUpdate k f d) = (dictGet k d).map f := by
  intro d
  induction d with
  | nil => rfl
  | cons p rest ih =>
    obtain ⟨ek, v⟩ := p
    by_cases hek : ek = k
    · subst hek
      simp [dictGet, dictUpdate]
    · simp [dictGet, dictUpdate, hek, ih]

theorem dictGet_dictUpdate_other (k q : String) (f : Turn → Turn) (hkq : k ≠ q) :
    ∀ d : List (String × Turn), dictGet q (dictUpdate k f d) = dictGet q d := by
  intro d
  have hqk : q ≠ k := Ne.symm hkq
  induction d with
  | nil => rfl
  | cons p rest ih =>
    obtain ⟨ek, v⟩ := p
    by_cases hek : ek = k
    · subst hek
      simp [dictGet, dictUpdate, hqk, hkq, ih]
    · by_cases heq : ek = q <;> simp [dictGet, dictUpdate, hek, heq, hqk, ih]

theorem mark_message_processed_cache (st : StreamMessageCache) (msgid : String) :
    (st.mark_message_processed msgid).cache = st.cache := rfl

theorem get_stream_data_mark_message_processed (st : StreamMessageCache) (m sid : String) :
    (st.mark_message_processed m).get_stream_data sid = st.get_stream_data sid := rfl

theorem is_finished_mark_message_processed (st : StreamMessageCache) (m sid : String) :
    (st.mark_message_processed m).is_finished sid = st.is_finished sid := rfl

theorem get_current_content_mark_message_processed (st : StreamMessageCache) (m sid : String) :
    (st.mark_message_processed m).get_current_content sid = st.get_current_content sid := rfl

theorem mem_drop_append_singleton (m : String) :
    ∀ (l : List String) (k : Nat), k ≤ l.length → m ∈ (l ++ [m]).drop k := by
  intro l
  induction l with
  | nil =>
    intro k hk
    have hz : k = 0 := Nat.le_zero.mp hk
    subst hz
    simp
  | cons a l ih =>
    intro k hk
    cases k with
    | zero => simp
    | succ k =>
      simpa using ih k (by simpa using hk)

theorem is_message_processed_mark (st : StreamMessageCache) (m : String)
    (hmem : m ∉ st.processed_msgids) :
    (st.mark_message_processed m).is_message_processed m = true := by
  unfold StreamMessageCache.mark_message_processed StreamMessageCache.is_message_processed
  simp only [hmem, if_false, decide_eq_true_eq]
  by_cases hlen : (st.processed_msgids ++ [m]).length > 10000
  · simp only [hlen, if_true]
    exact mem_drop_append_singleton m st.processed_msgids 5000 (by simp at hlen; omega)
  · simp only [hlen, if_false]
    exact List.mem_append.mpr (Or.inr (by simp))

/-! ## Helper lemmas about `encrypt_message`

The stream reply shapes carry `stream.id` and `stream.finish`, so the
post-seal log access succeeds on them; the template-card reply has no
`stream` key, so it raises. -/

theorem encrypt_message_text_stream (rid sid content : String) (finish : Bool) :
    encrypt_message rid (make_text_stream sid content finish)
      = .ok (.sealed rid (make_text_stream sid content finish)) := rfl

theorem encrypt_message_image_stream (rid : String) (dg : Digests) (sid : String)
    (image_data : List Nat) (finish : Bool) :
    encrypt_message rid (make_image_stream dg sid image_data finish)
      = .ok (.sealed rid (make_image_stream dg sid image_data finish)) := rfl

theorem encrypt_message_mixed_stream (rid sid : String) (items : List Json) (finish : Bool) :
    encrypt_message rid (make_mixed_stream sid items finish)
      = .ok (.sealed rid (make_mixed_stream sid items finish)) := rfl

theorem encrypt_message_welcome_card (rid agent_name : String) :
    encrypt_message rid (make_welcome_template_card agent_name) = .error () := rfl

theorem encrypt_message_buildFinishedReply (rid : String) (dg : Digests)
    (sid content : String) (images : List (List Nat)) :
    encrypt_message rid (buildFinishedReply dg sid content images)
      = .ok (.sealed rid (buildFinishedReply dg sid content images)) := by
  unfold buildFinishedReply
  by_cases h : images ≠ [] ∧ content ≠ ""
  · rw [if_pos h]
    exact encrypt_message_mixed_stream rid sid _ true
  · rw [if_neg h]
    cases images with
    | nil => exact encrypt_message_text_stream rid sid content true
    | cons i rest => exact encrypt_message_image_stream rid dg sid i true

/-! ## Claim C9 -/

/-- Claim C9: for every streamId that is not present in the cache,
`is_finished` returns true — a missing, evicted, or not-yet-created turn is
indistinguishable from a finished one at the polling interface. -/
theorem C9_missing_turn_is_finished (st : StreamMessageCache) (stream_id : String)
    (h : st.get_stream_data stream_id = none) :
    st.is_finished stream_id = true := by
  unfold StreamMessageCache.is_finished
  unfold StreamMessageCache.get_stream_data at h
  rw [h]

theorem C9_witness :
    (⟨[], [], 0⟩ : StreamMessageCache).get_stream_data "s" = none ∧
    (⟨[], [], 0⟩ : StreamMessageCache).is_finished "s" = true :=
  ⟨rfl, C9_missing_turn_is_finished ⟨[], [], 0⟩ "s" rfl⟩

/-! ## Claim C7 -/

/-- A cache holding the single turn "s" whose conversation id was first set
to "a". -/
def c7state : StreamMessageCache :=
  ((⟨[], [], 0⟩ : StreamMessageCache).create_stream "s" "q" 0).set_conversation_id "s" "a"

/-- Claim C7 counterexample: after the conversation id of turn "s" has been
set to "a", a later `set_conversation_id` call with "b" is not a no-op — the
snapshot shows "b", the last value written, not the first. -/
theorem C7_counterexample :
    ((c7state.set_conversation_id "s" "b").get_stream_data "s").map
        (fun tr => tr.conversation_id) = some (some "b") ∧
    ((c7state.set_conversation_id "s" "b").get_stream_data "s").map
        (fun tr => tr.conversation_id) ≠ some (some "a") := by
  refine ⟨rfl, ?_⟩
  intro h
  rw [show ((c7state.set_conversation_id "s" "b").get_stream_data "s").map
      (fun tr => tr.conversation_id) = some (some "b") from rfl] at h
  simp at h

/-- Claim C7 (amended): `set_conversation_id` overwrites unconditionally on
an existing turn, so the value observed in the snapshot is the last one
written; on a missing streamId the call is a no-op. -/
theorem C7_set_conversation_id_last_write_wins (st : StreamMessageCache)
    (sid a b : String) :
    ((st.set_conversation_id sid a).set_conversation_id sid b).get_stream_data sid
      = (st.get_stream_data sid).map (fun tr => { tr with conversation_id := some b }) := by
  unfold StreamMessageCache.set_conversation_id StreamMessageCache.get_stream_data
  simp only [dictGet_dictUpdate_self]
  cases dictGet sid st.cache <;> rfl

/-! ## Claim C5 -/

/-- A cache holding the single turn "s", already marked finished. -/
def c5state : StreamMessageCache :=
  ((⟨[], [], 0⟩ : StreamMessageCache).create_stream "s" "q" 0).mark_finished "s"

/-- Claim C5 counterexample: on the finished turn "s" (with no text so far),
`add_text_part` is not a no-op — it appends "x" to the accumulated text
parts (while leaving the finished flag true). -/
theorem C5_counterexample :
    c5state.get_current_content "s" = "" ∧
    (c5state.add_text_part "s" "x").get_current_content "s" = "x" ∧
    (c5state.add_text_part "s" "x").is_finished "s" = true :=
  ⟨rfl, rfl, rfl⟩

/-- The cache operations quantified over by the monotonicity claim. -/
inductive TurnOp where
  | addText (stream_id text : String)
  | addImage (stream_id : String) (image_data : List Nat)
  | setConv (stream_id conversation_id : String)
  | markFin (stream_id : String)

/-- Interpretation of a `TurnOp` against the cache. -/
def applyTurnOp (st : StreamMessageCache) : TurnOp → StreamMessageCache
  | .addText sid t => st.add_text_part sid t
  | .addImage sid d => st.add_image sid d
  | .setConv sid c => st.set_conversation_id sid c
  | .markFin sid => st.mark_finished sid

theorem is_finished_applyTurnOp (st : StreamMessageCache) (sid : String) (op : TurnOp)
    (h : st.is_finished sid = true) : (applyTurnOp st op).is_finished sid = true := by
  have key : ∀ (k : String) (f : Turn → Turn),
      (∀ tr, tr.is_finished = true → (f tr).is_finished = true) →
      StreamMessageCache.is_finished { st with cache := dictUpdate k f st.cache } sid = true := by
    intro k f hf
    unfold StreamMessageCache.is_finished at h ⊢
    dsimp only
    by_cases hk : k = sid
    · subst hk
      rw [dictGet_dictUpdate_self k f st.cache]
      cases hd : dictGet k st.cache with
      | none => simp
      | some tr =>
        rw [hd] at h
        simpa using hf tr h
    · rw [dictGet_dictUpdate_other k sid f hk st.cache]
      exact h
  cases op with
  | addText sid' t => exact key sid' _ (fun tr htr => htr)
  | addImage sid' d => exact key sid' _ (fun tr htr => htr)
  | setConv sid' c => exact key sid' _ (fun tr htr => htr)
  | markFin sid' => exact key sid' _ (fun tr _ => rfl)

/-- Claim C5 (amended): once a turn is finished, no sequence of
`add_text_part` / `add_image` / `set_conversation_id` / `mark_finished`
calls ever reverts the finished flag; but `add_text_part` on the finished
turn is not a no-op — it still appends to the accumulated text parts
(and likewise `add_image`). -/
theorem C5_finished_monotone (st : StreamMessageCache) (sid : String) (ops : List TurnOp)
    (h : st.is_finished sid = true) :
    (ops.foldl applyTurnOp st).is_finished sid = true ∧
    (∀ t : String, ((st.add_text_part sid t).get_stream_data sid
      = (st.get_stream_data sid).map
          (fun tr => { tr with text_parts := tr.text_parts ++ [t] }))) ∧
    (∀ d : List Nat, ((st.add_image sid d).get_stream_data sid
      = (st.get_stream_data sid).map
          (fun tr => { tr with images := tr.images ++ [d] }))) := by
  refine ⟨?_, ?_, ?_⟩
  · induction ops generalizing st with
    | nil => exact h
    | cons op ops ih => exact ih (applyTurnOp st op) (is_finished_applyTurnOp st sid op h)
  · intro t
    unfold StreamMessageCache.add_text_part StreamMessageCache.get_stream_data
    exact dictGet_dictUpdate_self sid _ st.cache
  · intro d
    unfold StreamMessageCache.add_image StreamMessageCache.get_stream_data
    exact dictGet_dictUpdate_self sid _ st.cache

theorem C5_witness :
    (([TurnOp.addText "s" "x", TurnOp.markFin "s"].foldl applyTurnOp c5state).is_finished "s"
        = true) ∧
    (∀ t : String, ((c5state.add_text_part "s" t).get_stream_data "s"
      = (c5state.get_stream_data "s").map
          (fun tr => { tr with text_parts := tr.text_parts ++ [t] }))) ∧
    (∀ d : List Nat, ((c5state.add_image "s" d).get_stream_data "s"
      = (c5state.get_stream_data "s").map
          (fun tr => { tr with images := tr.images ++ [d] }))) :=
  C5_finished_monotone c5state "s" [TurnOp.addText "s" "x", TurnOp.markFin "s"] rfl

/-! ## Claim C3 -/

/-- Claim C3 (code-bug evidence): when the relay receives an `error` event
from the AI backend — and likewise when the generic exception handler runs —
the turn is marked finished but the apology fragment is never appended: the
accumulated text stays empty (the source builds `error_stream` into a local
variable and never stores it), so a subsequent poll returns empty content,
not the apology text the spec promises. -/
theorem C3_error_event_apology_dropped :
    (process_dify_response "s" "q" 0 [DifyEvent.error "boom"]
        ⟨[], [], 0⟩).get_current_content "s" = "" ∧
    (process_dify_response "s" "q" 0 [DifyEvent.error "boom"]
        ⟨[], [], 0⟩).is_finished "s" = true ∧
    (process_dify_response_exc "s"
        ((⟨[], [], 0⟩ : StreamMessageCache).create_stream "s" "q" 0)).get_current_content "s"
      = "" ∧
    (process_dify_response_exc "s"
        ((⟨[], [], 0⟩ : StreamMessageCache).create_stream "s" "q" 0)).is_finished "s" = true :=
  ⟨rfl, rfl, rfl, rfl⟩

/-! ## Claim C2 -/

/-- A handler environment with trivial digests and no reachable network. -/
def c2ctx : HandlerCtx :=
  ⟨⟨fun _ => "", fun _ => ""⟩, "", none, fun _ => .error "", "fresh1", "fresh2"⟩

/-- A decrypted stream-continuation poll for a streamId absent from the
cache (expired, already consumed, or never created). -/
def c2data : DecryptedData :=
  ⟨some "stream", "", "", "single", "anonymous", none, some "gone", none, [], .dict none⟩

/-- Claim C2 (code-bug evidence): polling for a streamId that is not in the
cache takes the finished branch (`is_finished` is true for a missing turn)
and then evaluates `get_stream_data(...).get('images', [])` on `None`,
raising `AttributeError`, which the outer handler converts into
`HTTPException(500)` — an error response, not the benign empty sealed reply
the spec promises. -/
theorem C2_missing_stream_poll_internal_error :
    (handle_message c2ctx c2data ⟨[], [], 0⟩).result = .httpError 500 := rfl

/-! ## Claim C1 -/

/-- Environment for the C1 evidence: an active agent named "客服". -/
def c1ctx : HandlerCtx :=
  ⟨⟨fun _ => "", fun _ => ""⟩, "", some "客服", fun _ => .error "", "f1", "f2"⟩

/-- A decrypted enter-chat event payload. -/
def c1data : DecryptedData :=
  ⟨some "event", "m1", "bot7", "single", "u1", none, none, none, [], .dict (some "enter_chat")⟩

/-- Claim C1 (code-bug evidence): on an enter-chat event the handler builds
the welcome template-card and seals it, but `encrypt_message` then
unconditionally reads `json.loads(stream)['stream']['id']` and
`['stream']['finish']` for its completion log line (wecom.py lines 68-71);
the template-card payload has no `stream` key, so this raises `KeyError`
and the call ends in `HTTPException(500)` — the sealed welcome card that
the claim (and the spec's dispatch rule) promises is never returned. The
turn cache is still never touched on this path. -/
theorem C1_enter_chat_internal_error :
    (handle_message c1ctx c1data ⟨[], [], 0⟩).result = .httpError 500 ∧
    encrypt_message "bot7" (make_welcome_template_card "客服") = .error () ∧
    (handle_message c1ctx c1data ⟨[], [], 0⟩).st.cache = [] ∧
    (handle_message c1ctx c1data ⟨[], [], 0⟩).tasks = [] :=
  ⟨rfl, rfl, rfl, rfl⟩

/-! ## Claim C6 -/

/-- Claim C6: two handler calls with the same non-empty msgid launch exactly
one relay task in total — the first call (a text message) launches it, and
the second call short-circuits at the dedup check, returning the bare
unencrypted "success" body, leaving the state untouched and never reaching
the msgtype dispatch. -/
theorem C6_dedup_idempotent (ctx1 ctx2 : HandlerCtx) (data : DecryptedData)
    (st : StreamMessageCache)
    (hm : data.msgid ≠ "")
    (hnew : st.is_message_processed data.msgid = false)
    (ht : data.msgtype = some "text")
    (hc : data.text_content.isSome = true) :
    (handle_message ctx1 data st).tasks.length = 1 ∧
    (handle_message ctx2 data (handle_message ctx1 data st).st).tasks = [] ∧
    (handle_message ctx2 data (handle_message ctx1 data st).st).result
      = .ok (.plain "success") ∧
    (handle_message ctx2 data (handle_message ctx1 data st).st).st
      = (handle_message ctx1 data st).st := by
  obtain ⟨content, hc'⟩ := Option.isSome_iff_exists.mp hc
  have hmem : data.msgid ∉ st.processed_msgids := by
    simpa [StreamMessageCache.is_message_processed] using hnew
  have h1 : handle_message ctx1 data st
      = ⟨.ok (.sealed ctx1.receive_id (make_text_stream ctx1.freshId "正在思考中..." false)),
         st.mark_message_processed data.msgid,
         [⟨ctx1.freshId, content, data.userid, []⟩]⟩ := by
    simp +decide [handle_message, ht, hc', hm, hnew, encrypt_message_text_stream]
  have h2 : handle_message ctx2 data (st.mark_message_processed data.msgid)
      = ⟨.ok (.plain "success"), st.mark_message_processed data.msgid, []⟩ := by
    simp [handle_message, ht, hm, is_message_processed_mark st data.msgid hmem]
  rw [h1]
  dsimp only
  rw [h2]
  exact ⟨rfl, rfl, rfl, rfl⟩

/-- Environment for the C6 witness. -/
def c6ctx : HandlerCtx :=
  ⟨⟨fun _ => "", fun _ => ""⟩, "", none, fun _ => .error "", "sid16", "sid16b"⟩

/-- A decrypted text message with msgid "m9". -/
def c6data : DecryptedData :=
  ⟨some "text", "m9", "", "single", "u1", some "hello", none, none, [], .dict none⟩

theorem C6_witness :
    (handle_message c6ctx c6data ⟨[], [], 0⟩).tasks.length = 1 ∧
    (handle_message c6ctx c6data (handle_message c6ctx c6data ⟨[], [], 0⟩).st).tasks = [] ∧
    (handle_message c6ctx c6data (handle_message c6ctx c6data ⟨[], [], 0⟩).st).result
      = .ok (.plain "success") ∧
    (handle_message c6ctx c6data (handle_message c6ctx c6data ⟨[], [], 0⟩).st).st
      = (handle_message c6ctx c6data ⟨[], [], 0⟩).st :=
  C6_dedup_idempotent c6ctx c6ctx c6data ⟨[], [], 0⟩ (by decide) rfl rfl rfl

/-! ## Claim C8 -/

/-- Concrete digests for the C8 statements. -/
def c8dg : Digests := ⟨fun _ => "b64", fun _ => "md5"⟩

/-- Claim C8 counterexample: a finished turn whose accumulated text is the
non-empty whitespace string " " and which holds one image produces a mixed
reply containing only the image item — not "exactly one text item followed
by the image items" as claimed (the text item is dropped because
`content.strip()` is empty). -/
theorem C8_counterexample :
    buildFinishedReply c8dg "s" " " [[1]]
      = make_mixed_stream "s" [imageItemJson c8dg [1]] true ∧
    buildFinishedReply c8dg "s" " " [[1]]
      ≠ make_mixed_stream "s" [textItemJson " ", imageItemJson c8dg [1]] true := by
  have htrim : pyStrip " " = "" := by decide
  have h1 : buildFinishedReply c8dg "s" " " [[1]]
      = make_mixed_stream "s" [imageItemJson c8dg [1]] true := by
    simp +decide [buildFinishedReply, htrim]
  refine ⟨h1, ?_⟩
  intro h
  rw [h1] at h
  simp [make_mixed_stream, imageItemJson, textItemJson] at h

/-- Claim C8 (amended): for a finished turn, the stream poll replies with —
mixed (one text item, then the image items in append order) when images and
non-whitespace text are both present; mixed with the image items only when
images are present and the non-empty text is whitespace-only; a single-image
reply of the first image when only images are present; otherwise a final
text reply carrying the concatenated text (empty content when the turn has
neither). The consumed turn is evicted. -/
theorem C8_finished_reply_selection (ctx : HandlerCtx) (data : DecryptedData)
    (st : StreamMessageCache) (sid : String) (turn : Turn)
    (ht : data.msgtype = some "stream")
    (hs : data.stream_id = some sid)
    (hdedup : data.msgid = "" ∨ st.is_message_processed data.msgid = false)
    (hturn : st.get_stream_data sid = some turn)
    (hfin : turn.is_finished = true) :
    ((handle_message ctx data st).result
      = .ok (.sealed ctx.receive_id
          (buildFinishedReply ctx.dg sid (String.join turn.text_parts) turn.images))) ∧
    ((handle_message ctx data st).st.cache = dictRemove sid st.cache) ∧
    (turn.images = [] →
      buildFinishedReply ctx.dg sid (String.join turn.text_parts) turn.images
        = make_text_stream sid (String.join turn.text_parts) true) ∧
    (∀ i rest, turn.images = i :: rest → String.join turn.text_parts = "" →
      buildFinishedReply ctx.dg sid (String.join turn.text_parts) turn.images
        = make_image_stream ctx.dg sid i true) ∧
    (String.join turn.text_parts ≠ "" → pyStrip (String.join turn.text_parts) ≠ "" →
      turn.images ≠ [] →
      buildFinishedReply ctx.dg sid (String.join turn.text_parts) turn.images
        = make_mixed_stream sid
            (textItemJson (String.join turn.text_parts)
              :: turn.images.map (imageItemJson ctx.dg)) true) ∧
    (String.join turn.text_parts ≠ "" → pyStrip (String.join turn.text_parts) = "" →
      turn.images ≠ [] →
      buildFinishedReply ctx.dg sid (String.join turn.text_parts) turn.images
        = make_mixed_stream sid (turn.images.map (imageItemJson ctx.dg)) true) := by
  have hd : dictGet sid st.cache = some turn := hturn
  refine ⟨?_, ?_, ?_, ?_, ?_, ?_⟩
  · by_cases hm : data.msgid = ""
    · simp +decide [handle_message, ht, hs, hm, StreamMessageCache.is_finished,
        StreamMessageCache.get_current_content, StreamMessageCache.get_stream_data, hd, hfin,
        encrypt_message_buildFinishedReply]
    · rcases hdedup with hmsgid | hproc
      · exact absurd hmsgid hm
      · simp +decide [handle_message, ht, hs, hm, hproc, StreamMessageCache.is_finished,
          StreamMessageCache.get_current_content, StreamMessageCache.get_stream_data,
          StreamMessageCache.mark_message_processed, hd, hfin,
          encrypt_message_buildFinishedReply]
  · by_cases hm : data.msgid = ""
    · simp +decide [handle_message, ht, hs, hm, StreamMessageCache.is_finished,
        StreamMessageCache.get_current_content, StreamMessageCache.get_stream_data,
        StreamMessageCache.remove_stream, hd, hfin, encrypt_message_buildFinishedReply]
    · rcases hdedup with hmsgid | hproc
      · exact absurd hmsgid hm
      · simp +decide [handle_message, ht, hs, hm, hproc, StreamMessageCache.is_finished,
          StreamMessageCache.get_current_content, StreamMessageCache.get_stream_data,
          StreamMessageCache.remove_stream, StreamMessageCache.mark_message_processed, hd, hfin,
          encrypt_message_buildFinishedReply]
  · intro himg
    simp [buildFinishedReply, himg]
  · intro i rest himg hcontent
    simp [buildFinishedReply, himg, hcontent]
  · intro hcontent htrim himg
    simp [buildFinishedReply, himg, hcontent, htrim]
  · intro hcontent htrim himg
    simp [buildFinishedReply, himg, hcontent, htrim]

/-- A finished text-only turn for the C8 witness. -/
def c8turn : Turn := ⟨"q", 0, ["hi"], [], true, none⟩

/-- Cache holding the finished turn "s". -/
def c8st : StreamMessageCache := ⟨[("s", c8turn)], [], 0⟩

/-- A stream poll for "s". -/
def c8data : DecryptedData :=
  ⟨some "stream", "", "", "single", "u", none, some "s", none, [], .dict none⟩

/-- Handler environment for the C8 witness. -/
def c8ctx : HandlerCtx := ⟨c8dg, "", none, fun _ => .error "", "f1", "f2"⟩

theorem C8_witness :
    ((handle_message c8ctx c8data c8st).result
      = .ok (.sealed c8ctx.receive_id
          (buildFinishedReply c8ctx.dg "s" (String.join c8turn.text_parts) c8turn.images))) ∧
    ((handle_message c8ctx c8data c8st).st.cache = dictRemove "s" c8st.cache) ∧
    (c8turn.images = [] →
      buildFinishedReply c8ctx.dg "s" (String.join c8turn.text_parts) c8turn.images
        = make_text_stream "s" (String.join c8turn.text_parts) true) ∧
    (∀ i rest, c8turn.images = i :: rest → String.join c8turn.text_parts = "" →
      buildFinishedReply c8ctx.dg "s" (String.join c8turn.text_parts) c8turn.images
        = make_image_stream c8ctx.dg "s" i true) ∧
    (String.join c8turn.text_parts ≠ "" → pyStrip (String.join c8turn.text_parts) ≠ "" →
      c8turn.images ≠ [] →
      buildFinishedReply c8ctx.dg "s" (String.join c8turn.text_parts) c8turn.images
        = make_mixed_stream "s"
            (textItemJson (String.join c8turn.text_parts)
              :: c8turn.images.map (imageItemJson c8ctx.dg)) true) ∧
    (String.join c8turn.text_parts ≠ "" → pyStrip (String.join c8turn.text_parts) = "" →
      c8turn.images ≠ [] →
      buildFinishedReply c8ctx.dg "s" (String.join c8turn.text_parts) c8turn.images
        = make_mixed_stream "s" (c8turn.images.map (imageItemJson c8ctx.dg)) true) :=
  C8_finished_reply_selection c8ctx c8data c8st "s" c8turn rfl rfl (Or.inl rfl) rfl rfl

/-! ## Claim C10 -/

/-- Claim C10: `process_encrypted_image` accepts any final decrypted byte
from 0 to 32 as the pad length, without inspecting the other pad bytes —
the result is success with that many trailing bytes dropped; in particular
a decryption ending in byte 0 yields success with empty bytes (the whole
plaintext is stripped via Python `data[:-0] == b''`), not a padding error. -/
theorem C10_pad_acceptance (D : List Nat → List Nat) (aes_key encrypted_data : List Nat)
    (k : Nat)
    (hkey : aes_key.length = 32)
    (hlast : (cbcDecrypt D (aes_key.take 16) encrypted_data).getLast? = some k)
    (hk : k ≤ 32) :
    (process_encrypted_image_core D aes_key encrypted_data
      = .ok (if k = 0 then []
             else (cbcDecrypt D (aes_key.take 16) encrypted_data).take
               ((cbcDecrypt D (aes_key.take 16) encrypted_data).length - k))) ∧
    (k = 0 → process_encrypted_image_core D aes_key encrypted_data = .ok []) := by
  have main : process_encrypted_image_core D aes_key encrypted_data
      = .ok (if k = 0 then []
             else (cbcDecrypt D (aes_key.take 16) encrypted_data).take
               ((cbcDecrypt D (aes_key.take 16) encrypted_data).length - k)) := by
    unfold process_encrypted_image_core
    rw [if_neg (by omega : ¬ aes_key.length ≠ 32)]
    unfold stripImagePadding
    rw [hlast]
    simp only [if_neg (by omega : ¬ k > 32)]
  exact ⟨main, fun h0 => by rw [main, if_pos h0]⟩

theorem C10_witness :
    (List.replicate 32 0 : List Nat).length = 32 ∧
    (cbcDecrypt id ((List.replicate 32 0 : List Nat).take 16)
      (List.replicate 16 0)).getLast? = some 0 ∧
    process_encrypted_image_core id (List.replicate 32 0) (List.replicate 16 0) = .ok [] :=
  ⟨by decide, by decide,
    (C10_pad_acceptance id (List.replicate 32 0) (List.replicate 16 0) 0
      (by decide) (by decide) (by decide)).2 rfl⟩

/-! ## Claim C4: helper lemmas for the seal/unseal round trip -/

theorem xorBytes_length (a b : List Nat) : (xorBytes a b).length = min a.length b.length := by
  simp [xorBytes]

theorem xorBytes_cancel : ∀ a b : List Nat, a.length = b.length → xorBytes a (xorBytes a b) = b := by
  intro a
  induction a with
  | nil =>
    intro b hb
    cases b with
    | nil => rfl
    | cons y ys => simp at hb
  | cons x xs ih =>
    intro b hb
    cases b with
    | nil => simp at hb
    | cons y ys =>
      show (x ^^^ (x ^^^ y)) :: xorBytes xs (xorBytes xs ys) = y :: ys
      rw [← Nat.xor_assoc, Nat.xor_self, Nat.zero_xor, ih ys (by simpa using hb)]

theorem toBlocksFuel_succ_ne_nil (fuel : Nat) (xs : List Nat) (h : xs ≠ []) :
    toBlocksFuel (fuel + 1) xs = xs.take 16 :: toBlocksFuel fuel (xs.drop 16) := by
  cases xs with
  | nil => exact absurd rfl h
  | cons x l => rfl

theorem toBlocksFuel_spec : ∀ (fuel : Nat) (xs : List Nat), xs.length ≤ fuel →
    16 ∣ xs.length →
    (toBlocksFuel fuel xs).flatten = xs ∧ ∀ b ∈ toBlocksFuel fuel xs, b.length = 16 := by
  intro fuel
  induction fuel with
  | zero =>
    intro xs hle _
    have hnil : xs = [] := List.eq_nil_of_length_eq_zero (Nat.le_zero.mp hle)
    subst hnil
    exact ⟨rfl, by intro b hb; simp [toBlocksFuel] at hb⟩
  | succ fuel ih =>
    intro xs hle hdvd
    cases hxs : xs with
    | nil => exact ⟨rfl, by intro b hb; simp [toBlocksFuel] at hb⟩
    | cons x rest =>
      subst hxs
      have hpos : 0 < (x :: rest).length := by simp
      have hlen16 : 16 ≤ (x :: rest).length := by omega
      obtain ⟨hfl, hall⟩ := ih ((x :: rest).drop 16)
        (by rw [List.length_drop]; omega)
        (by rw [List.length_drop]; omega)
      rw [toBlocksFuel_succ_ne_nil fuel (x :: rest) (by simp)]
      constructor
      · rw [List.flatten_cons, hfl, List.take_append_drop]
      · intro b hb
        rcases List.mem_cons.mp hb with h | h
        · rw [h, List.length_take]
          omega
        · exact hall b h

theorem toBlocksFuel_flatten : ∀ (bs : List (List Nat)) (fuel : Nat),
    (∀ b ∈ bs, b.length = 16) → bs.flatten.length ≤ fuel →
    toBlocksFuel fuel bs.flatten = bs := by
  intro bs
  induction bs with
  | nil =>
    intro fuel _ _
    cases fuel <;> rfl
  | cons b bs ih =>
    intro fuel hall hle
    have hb : b.length = 16 := hall b (List.mem_cons_self b bs)
    have hlen : (b :: bs).flatten.length = 16 + bs.flatten.length := by
      rw [List.flatten_cons, List.length_append, hb]
    obtain ⟨fuel', rfl⟩ : ∃ f, fuel = f + 1 := by
      cases fuel with
      | zero => exact absurd hle (by omega)
      | succ f => exact ⟨f, rfl⟩
    rw [List.flatten_cons,
      toBlocksFuel_succ_ne_nil fuel' (b ++ bs.flatten)
        (List.ne_nil_of_length_pos (by rw [List.length_append]; omega)),
      List.take_left' hb, List.drop_left' hb,
      ih fuel' (fun c hc => hall c (List.mem_cons_of_mem b hc)) (by omega)]

theorem cbcEncBlocks_all_length (E : List Nat → List Nat)
    (hE : ∀ b, b.length = 16 → (E b).length = 16) :
    ∀ (bs : List (List Nat)) (prev : List Nat), prev.length = 16 →
    (∀ b ∈ bs, b.length = 16) → ∀ c ∈ cbcEncBlocks E prev bs, c.length = 16 := by
  intro bs
  induction bs with
  | nil => intro prev _ _ c hc; simp [cbcEncBlocks] at hc
  | cons b bs ih =>
    intro prev hprev hall c hc
    have hxlen : (xorBytes prev b).length = 16 := by
      rw [xorBytes_length, hprev, hall b (List.mem_cons_self b bs)]
      simp
    have hclen : (E (xorBytes prev b)).length = 16 := hE _ hxlen
    rw [show cbcEncBlocks E prev (b :: bs)
        = E (xorBytes prev b) :: cbcEncBlocks E (E (xorBytes prev b)) bs from rfl] at hc
    rcases List.mem_cons.mp hc with h | h
    · rw [h]; exact hclen
    · exact ih (E (xorBytes prev b)) hclen
        (fun x hx => hall x (List.mem_cons_of_mem b hx)) c h

theorem cbcDecBlocks_cbcEncBlocks (E D : List Nat → List Nat)
    (hED : ∀ b, b.length = 16 → D (E b) = b)
    (hE : ∀ b, b.length = 16 → (E b).length = 16) :
    ∀ (bs : List (List Nat)) (prev : List Nat), prev.length = 16 →
    (∀ b ∈ bs, b.length = 16) →
    cbcDecBlocks D prev (cbcEncBlocks E prev bs) = bs := by
  intro bs
  induction bs with
  | nil => intro prev _ _; rfl
  | cons b bs ih =>
    intro prev hprev hall
    have hblen : b.length = 16 := hall b (List.mem_cons_self b bs)
    have hxlen : (xorBytes prev b).length = 16 := by
      rw [xorBytes_length, hprev, hblen]; simp
    show xorBytes prev (D (E (xorBytes prev b)))
        :: cbcDecBlocks D (E (xorBytes prev b)) (cbcEncBlocks E (E (xorBytes prev b)) bs)
      = b :: bs
    rw [hED _ hxlen, xorBytes_cancel prev b (hprev.trans hblen.symm),
      ih (E (xorBytes prev b)) (hE _ hxlen)
        (fun x hx => hall x (List.mem_cons_of_mem b hx))]

theorem cbcDecrypt_cbcEncrypt (E D : List Nat → List Nat)
    (hED : ∀ b, b.length = 16 → D (E b) = b)
    (hE : ∀ b, b.length = 16 → (E b).length = 16)
    (iv xs : List Nat) (hiv : iv.length = 16) (hdvd : 16 ∣ xs.length) :
    cbcDecrypt D iv (cbcEncrypt E iv xs) = xs := by
  obtain ⟨hfl, hall⟩ := toBlocksFuel_spec xs.length xs le_rfl hdvd
  have hcall : ∀ c ∈ cbcEncBlocks E iv (toBlocksFuel xs.length xs), c.length = 16 :=
    cbcEncBlocks_all_length E hE (toBlocksFuel xs.length xs) iv hiv hall
  unfold cbcDecrypt cbcEncrypt
  rw [toBlocksFuel_flatten (cbcEncBlocks E iv (toBlocksFuel xs.length xs)) _ hcall le_rfl,
    cbcDecBlocks_cbcEncBlocks E D hED hE (toBlocksFuel xs.length xs) iv hiv hall, hfl]

theorem padLen32_pos (n : Nat) : 1 ≤ padLen32 n := by
  unfold padLen32; omega

theorem pad32_length (xs : List Nat) :
    (pad32 xs).length = xs.length + padLen32 xs.length := by
  simp [pad32]

theorem dvd16_pad32_length (xs : List Nat) : 16 ∣ (pad32 xs).length := by
  rw [pad32_length]
  unfold padLen32
  omega

theorem unpad32_pad32 (xs : List Nat) : unpad32 (pad32 xs) = xs := by
  unfold unpad32 pad32
  have hk := padLen32_pos xs.length
  have hlast : (xs ++ List.replicate (padLen32 xs.length) (padLen32 xs.length)).getLast?
      = some (padLen32 xs.length) := by
    obtain ⟨m, hm⟩ : ∃ m, padLen32 xs.length = m + 1 := ⟨padLen32 xs.length - 1, by omega⟩
    rw [hm, List.replicate_succ' m (m + 1), ← List.append_assoc, List.getLast?_concat]
  rw [hlast]
  show (xs ++ List.replicate (padLen32 xs.length) (padLen32 xs.length)).take
      ((xs ++ List.replicate (padLen32 xs.length) (padLen32 xs.length)).length
        - padLen32 xs.length) = xs
  rw [List.length_append, List.length_replicate,
    show xs.length + padLen32 xs.length - padLen32 xs.length = xs.length by omega,
    List.take_left]

theorem beUint32_length (n : Nat) : (beUint32 n).length = 4 := rfl

theorem beDecode_beUint32 (n : Nat) (h : n < 4294967296) :
    beDecode (beUint32 n) = n := by
  show ((n / 16777216 % 256 * 256 + n / 65536 % 256) * 256 + n / 256 % 256) * 256 + n % 256 = n
  omega

theorem unframe_frame (rnd m receiver : List Nat) (hrnd : rnd.length = 16)
    (hm : m.length < 4294967296) :
    unframe receiver (frame rnd m receiver) = some m := by
  unfold unframe frame
  simp only [List.append_assoc]
  rw [← hrnd]
  simp only [List.drop_left]
  rw [← beUint32_length m.length]
  simp only [List.take_left, List.drop_left]
  rw [beDecode_beUint32 m.length hm]
  simp only [List.take_left, List.drop_left]
  simp

/-! ## Claim C4 -/

/-- Claim C4: sealing then unsealing returns the original message bytes,
`verifyURL` accepts the signature the gateway itself computes over the same
timestamp, nonce and ciphertext, and sealing pads the framed plaintext with
pad value 32 - (len mod 32) — 32 when the remainder is zero, so the pad
block is never empty — bringing the length to a 32-byte boundary. (The
crypto source file is absent from the checked-in sources; the scheme is
modelled from the specification, with the AES-256 block permutation and
SHA1 abstracted as the arguments E/D and h.) -/
theorem C4_seal_unseal_roundtrip (E D : List Nat → List Nat) (h : String → String)
    (token timestamp nonce ciphertext_b64 : String)
    (iv rnd m receiver : List Nat)
    (hED : ∀ b, b.length = 16 → D (E b) = b)
    (hE : ∀ b, b.length = 16 → (E b).length = 16)
    (hiv : iv.length = 16) (hrnd : rnd.length = 16)
    (hm : m.length < 4294967296) :
    unsealMsg D iv receiver (sealMsg E iv rnd receiver m) = some m ∧
    verifySignature h token (computeSignature h token timestamp nonce ciphertext_b64)
      timestamp nonce ciphertext_b64 = true ∧
    pad32 (frame rnd m receiver)
      = frame rnd m receiver
        ++ List.replicate (32 - (frame rnd m receiver).length % 32)
             (32 - (frame rnd m receiver).length % 32) ∧
    1 ≤ 32 - (frame rnd m receiver).length % 32 ∧
    32 - (frame rnd m receiver).length % 32 ≤ 32 ∧
    32 ∣ (frame rnd m receiver).length + (32 - (frame rnd m receiver).length % 32) := by
  refine ⟨?_, ?_, rfl, by omega, by omega, by omega⟩
  · unfold sealMsg unsealMsg
    rw [cbcDecrypt_cbcEncrypt E D hED hE iv (pad32 (frame rnd m receiver)) hiv
        (dvd16_pad32_length (frame rnd m receiver)),
      unpad32_pad32]
    exact unframe_frame rnd m receiver hrnd hm
  · simp [verifySignature]

theorem C4_witness :
    unsealMsg id (List.replicate 16 0) []
      (sealMsg id (List.replicate 16 0) (List.replicate 16 7) [] [104, 105]) = some [104, 105] ∧
    verifySignature (fun s => s) "tok"
      (computeSignature (fun s => s) "tok" "12345" "abcde" "Q1RYVA==")
      "12345" "abcde" "Q1RYVA==" = true ∧
    pad32 (frame (List.replicate 16 7) [104, 105] [])
      = frame (List.replicate 16 7) [104, 105] []
        ++ List.replicate (32 - (frame (List.replicate 16 7) [104, 105] []).length % 32)
             (32 - (frame (List.replicate 16 7) [104, 105] []).length % 32) ∧
    1 ≤ 32 - (frame (List.replicate 16 7) [104, 105] []).length % 32 ∧
    32 - (frame (List.replicate 16 7) [104, 105] []).length % 32 ≤ 32 ∧
    32 ∣ (frame (List.replicate 16 7) [104, 105] []).length
      + (32 - (frame (List.replicate 16 7) [104, 105] []).length % 32) :=
  C4_seal_unseal_roundtrip id id (fun s => s) "tok" "12345" "abcde" "Q1RYVA=="
    (List.replicate 16 0) (List.replicate 16 7) [104, 105] []
    (fun _ _ => rfl) (fun _ hb => hb) (by decide) (by decide) (by decide)
